import Mathlib

set_option autoImplicit false

namespace UltraContext

/-!
Shallow embedding of the ultracontext Python SDK
(src/apps/python-sdk/ultracontext: __init__.py, exceptions.py, types.py).
The client module (version tracker, response mapper, operations façade) is
imported by __init__.py but its source is not part of the given tree; where a
claim depends on it, the corresponding definition is modelled from the spec and
marked as such in its doc comment.
-/

/-- Names of the classes defined in exceptions.py, in source order. -/
def exceptionsDefinedNames : List String :=
  ["UltraContextError", "UltraContextHttpError"]

/-- Names of the TypedDict classes defined in types.py, in source order. -/
def typesDefinedNames : List String :=
  ["Context", "Message", "Version", "CreateContextResponse",
   "ListContextsResponse", "GetContextResponse", "AppendResponse",
   "UpdateResponse", "DeleteResponse"]

/-- Names __init__.py imports from .types, verbatim. -/
def initTypesImports : List String :=
  ["AppendResponse", "CompressOptions", "CompressResponse", "CompressionInfo",
   "Context", "CreateContextResponse", "DeleteResponse", "GetContextResponse",
   "ListContextsResponse", "Message", "UncompressOptions", "UncompressResponse",
   "UpdateResponse", "Version"]

/-- Names __init__.py imports from .exceptions, verbatim. -/
def initExceptionImports : List String :=
  ["UltraContextError", "UltraContextHttpError"]

/-- The `__all__` export list of __init__.py, verbatim and in source order. -/
def allExports : List String :=
  ["UltraContext", "AsyncUltraContext",
   "UltraContextError", "UltraContextHttpError",
   "Context", "Message", "Version",
   "CreateContextResponse", "ListContextsResponse", "GetContextResponse",
   "AppendResponse", "UpdateResponse", "DeleteResponse",
   "CompressOptions", "CompressResponse", "CompressionInfo",
   "UncompressOptions", "UncompressResponse"]

/-- Parent class of each Python class of the repository's exception hierarchy
(exceptions.py): UltraContextError extends Exception, UltraContextHttpError
extends UltraContextError. -/
def pyParent : String → Option String
  | "UltraContextError" => some "Exception"
  | "UltraContextHttpError" => some "UltraContextError"
  | _ => none

/-- Fuel-bounded reflexive-transitive walk up the parent chain. -/
def isSubclassFuel : Nat → String → String → Bool
  | 0, _, _ => false
  | fuel + 1, c, p =>
      c == p ||
        match pyParent c with
        | some q => isSubclassFuel fuel q p
        | none => false

/-- Python issubclass over the embedded hierarchy; chain depth is at most 3. -/
def isSubclass (c p : String) : Bool := isSubclassFuel 8 c p

/-- An instance of class inst is caught by an except clause naming class
clause exactly when inst is a subclass of clause. -/
def pyCatches (clause inst : String) : Bool := isSubclass inst clause

/-- Embedding of the UltraContextError class (exceptions.py lines 6-9): the base
exception adds nothing; per Python, Exception.**init** stores the positional
arguments in args. -/
structure UltraContextError where
  args : List String

/-- Embedding of the UltraContextHttpError class (exceptions.py lines 12-19):
super().**init**(message) stores args = [message]; status, url and body are set
as attributes. -/
structure UltraContextHttpError where
  args : List String
  status : Int
  url : String
  body : Option String

/-- The constructor of UltraContextHttpError with every argument supplied
(exceptions.py line 15-19). -/
def UltraContextHttpError.init (message : String) (status : Int) (url : String)
    (body : Option String) : UltraContextHttpError :=
  ⟨[message], status, url, body⟩

/-- The constructor of UltraContextHttpError with the body argument omitted:
its Python default is None (exceptions.py line 15). -/
def UltraContextHttpError.initNoBody (message : String) (status : Int)
    (url : String) : UltraContextHttpError :=
  UltraContextHttpError.init message status url none

/-- Python Exception.**str**: with a single positional argument it returns that
argument; with none, the empty string. (The several-argument tuple repr is not
exercised by this code base; any rendering of it is equivalent here.) -/
def excStr : List String → String
  | [] => ""
  | [a] => a
  | a :: rest => a ++ ", " ++ excStr rest

/-- Generic structured value produced by the external JSON codec (spec section 6). -/
inductive JVal where
  | null
  | bool (b : Bool)
  | num (n : Int)
  | str (s : String)
  | arr (xs : List JVal)
  | obj (fields : List (String × JVal))

/-- Embedding of the Context TypedDict (types.py lines 6-11). -/
structure Context where
  id : String
  metadata : List (String × JVal)
  created_at : String

/-- Embedding of the Message TypedDict (types.py lines 14-21); total=False, so
every field may be absent, rendered as an Option. -/
structure Message where
  id : Option String
  index : Option Int
  role : Option String
  content : Option String
  metadata : Option (List (String × JVal))

/-- Embedding of the Version TypedDict (types.py lines 24-31); total=False, so
every field may be absent, rendered as an Option (affected and metadata are in
addition Optional-annotated in the source). -/
structure Version where
  version : Option Int
  created_at : Option String
  operation : Option String
  affected : Option (List String)
  metadata : Option (List (String × JVal))

/-- Embedding of the CreateContextResponse TypedDict (types.py lines 34-39). -/
structure CreateContextResponse where
  id : String
  metadata : Option (List (String × JVal))
  created_at : String

/-- Embedding of the ListContextsResponse TypedDict (types.py lines 42-45). -/
structure ListContextsResponse where
  data : List Context

/-- Embedding of the GetContextResponse TypedDict (types.py lines 48-53);
total=False: an absent data or versions key degrades to the empty list, an
absent version to none. -/
structure GetContextResponse where
  data : List Message
  version : Option Int
  versions : List Version

/-- Embedding of the AppendResponse TypedDict (types.py lines 56-60). -/
structure AppendResponse where
  data : List Message
  version : Int

/-- Embedding of the UpdateResponse TypedDict (types.py lines 63-67). -/
structure UpdateResponse where
  data : List Message
  version : Int

/-- Embedding of the DeleteResponse TypedDict (types.py lines 70-74). -/
structure DeleteResponse where
  data : List Message
  version : Int

/-- Modelled from the spec: CompressOptions is imported by __init__.py from
.types but its definition is absent from the given types.py; per spec section
4.3 it specifies the scope of compaction (a message-index range) and the
strategy. -/
structure CompressOptions where
  fromIndex : Option Int
  toIndex : Option Int
  strategy : Option String

/-- Modelled from the spec: CompressionInfo describes the outcome of a compress
operation, e.g. number of messages compacted and resulting size (spec section
3); its definition is absent from the given types.py. -/
structure CompressionInfo where
  compacted : Option Int
  size : Option Int

/-- Modelled from the spec: CompressResponse returns the new message list, the
new version, and the CompressionInfo (spec section 4.3); its definition is
absent from the given types.py. -/
structure CompressResponse where
  data : List Message
  version : Int
  compression : Option CompressionInfo

/-- Modelled from the spec: UncompressOptions selects the previously compressed
region to expand (spec section 4.3); its definition is absent from the given
types.py. -/
structure UncompressOptions where
  fromIndex : Option Int
  toIndex : Option Int

/-- Modelled from the spec: UncompressResponse returns the expanded message
list and the new version (spec section 4.3); its definition is absent from the
given types.py. -/
structure UncompressResponse where
  data : List Message
  version : Int

/-- Names of the type records modelled from the spec because their definitions
are missing from the given types.py while __init__.py imports them. -/
def modelledTypesNames : List String :=
  ["CompressOptions", "CompressResponse", "CompressionInfo",
   "UncompressOptions", "UncompressResponse"]

/-- All type-record names available for import from the types module: the ones
defined in the given types.py plus the modelled ones. -/
def typesAllDefined : List String := typesDefinedNames ++ modelledTypesNames

/-- Modelled from the spec: the Version Tracker state (spec section 4.2) of the
client module, which is absent from the given tree. Per context id the state is
Unknown (no entry) or Known v (an entry mapping the id to v); the whole tracker
is a finite map from context ids to version numbers. -/
def TrackerState : Type := List (String × Nat)

namespace VersionTracker

/-- Modelled from the spec: expected(context_id) returns the last known version
for the id, or absence when the id is in the Unknown state (spec section 4.2). -/
def expected : TrackerState → String → Option Nat
  | [], _ => none
  | (k, v) :: rest, cid => if k = cid then some v else expected rest cid

/-- Replace (or insert) the tracked version of one context id. -/
def setVal : TrackerState → String → Nat → TrackerState
  | [], cid, v => [(cid, v)]
  | (k, w) :: rest, cid, v =>
      if k = cid then (cid, v) :: rest else (k, w) :: setVal rest cid v

/-- Modelled from the spec: observe(context_id, version) advances the tracked
version exactly when the response version is at least the current one; a stale
version is ignored and never regresses the tracked value; from Unknown the
version is always taken (spec section 4.2). -/
def observe (s : TrackerState) (cid : String) (v : Nat) : TrackerState :=
  match expected s cid with
  | none => (cid, v) :: s
  | some cur => if cur ≤ v then setVal s cid v else s

/-- Modelled from the spec: reset(context_id) drops the tracked state for the
id, returning it to Unknown (spec section 4.2). -/
def reset : TrackerState → String → TrackerState
  | [], _ => []
  | (k, w) :: rest, cid =>
      if k = cid then reset rest cid else (k, w) :: reset rest cid

theorem expected_setVal_self (s : TrackerState) (cid : String) (v : Nat) :
    expected (setVal s cid v) cid = some v := by
  induction s with
  | nil => simp [setVal, expected]
  | cons hd tl ih =>
      obtain ⟨k, w⟩ := hd
      by_cases hk : k = cid
      · simp [setVal, hk, expected]
      · simp [setVal, hk, expected, ih]

theorem expected_observe_self (s : TrackerState) (cid : String) (v : Nat) :
    expected (observe s cid v) cid =
      some (match expected s cid with
            | none => v
            | some cur => if cur ≤ v then v else cur) := by
  unfold observe
  cases h : expected s cid with
  | none => simp [expected]
  | some cur =>
      by_cases hc : cur ≤ v
      · simp [hc, expected_setVal_self]
      · simp [hc, h]

theorem expected_reset_self (s : TrackerState) (cid : String) :
    expected (reset s cid) cid = none := by
  induction s with
  | nil => simp [reset, expected]
  | cons hd tl ih =>
      obtain ⟨k, w⟩ := hd
      by_cases hk : k = cid
      · simp [reset, hk, ih]
      · simp [reset, hk, expected, ih]

/-- Observing a version at least as large as everything currently tracked for
the id makes the id track exactly that version. -/
theorem expected_observe_of_le (s : TrackerState) (cid : String) (v : Nat)
    (h : ∀ w, expected s cid = some w → w ≤ v) :
    expected (observe s cid v) cid = some v := by
  rw [expected_observe_self]
  cases hx : expected s cid with
  | none => simp
  | some cur => simp [h cur hx]

end VersionTracker

/-- Modelled from the spec: the five mutating operations of the façade (spec
section 4.3); the client module is absent from the given tree. -/
inductive MutOp where
  | append
  | update
  | delete
  | compress
  | uncompress
deriving DecidableEq

/-- Modelled from the spec: the wire outcome of one mutating call — success
carrying the new version, or the distinguished version-conflict shape carrying
the server's authoritative current version (spec sections 4.3 and 7). -/
inductive MutResult where
  | ok (version : Nat)
  | conflict (serverVersion : Nat)

/-- Modelled from the spec: ConflictError, the specialization of the HTTP error
carrying the server's authoritative current version (spec sections 6 and 7);
the client module defining it is absent from the given tree. -/
structure ConflictError where
  toHttp : UltraContextHttpError
  currentVersion : Nat

/-- Modelled from the spec: the typed failures a mutating façade operation can
surface (spec section 4.3). -/
inductive OpFailure where
  | conflictFailure (e : ConflictError)
  | httpFailure (e : UltraContextHttpError)

/-- Modelled from the spec: the precondition a mutating call sends — the last
known version when there is one, nothing from the Unknown state (spec sections
4.2 and 4.3). -/
def sendPrecondition (s : TrackerState) (cid : String) : Option Nat :=
  VersionTracker.expected s cid

/-- Modelled from the spec: the tracker update performed by a successful
mutating call (spec section 4.3) — observe the returned version, except that a
successful delete resets the id instead. -/
def successTracker (op : MutOp) (s : TrackerState) (cid : String) (v : Nat) :
    TrackerState :=
  match op with
  | .delete => VersionTracker.reset s cid
  | _ => VersionTracker.observe s cid v

/-- Modelled from the spec: the post-processing of one mutating façade call
(spec section 4.3). On success the version tracker observes the returned
version, except that a successful delete resets the id instead; on a conflict
the call fails with a ConflictError exposing the server's current version and
the tracker is left untouched. -/
def opStep (op : MutOp) (s : TrackerState) (cid : String) (url : String)
    (r : MutResult) : TrackerState × Except OpFailure Nat :=
  match r with
  | .ok v => (successTracker op s cid v, .ok v)
  | .conflict sv =>
      (s,
       .error (.conflictFailure
         ⟨UltraContextHttpError.init "version conflict" 409 url none, sv⟩))

/-- Modelled from the spec: a run of successful mutating calls on one context
against a server whose version counter increments on every mutation; each call
returns the incremented server version and is post-processed by opStep. The
result pairs the final tracker state with the final server version, which is
the version returned by the most recent call when the run is nonempty. -/
def runSuccess (cid : String) (url : String) :
    List MutOp → TrackerState × Nat → TrackerState × Nat
  | [], st => st
  | op :: rest, (s, sv) =>
      runSuccess cid url rest ((opStep op s cid url (.ok (sv + 1))).fst, sv + 1)

/-- A successful step keeps every tracked version for the id at or below the
version it observed. -/
theorem successTracker_bound (op : MutOp) (s : TrackerState) (cid : String)
    (v : Nat) (h : ∀ w, VersionTracker.expected s cid = some w → w ≤ v) :
    ∀ w, VersionTracker.expected (successTracker op s cid v) cid = some w →
      w ≤ v := by
  intro w hw
  cases op <;> simp only [successTracker] at hw <;>
    first
      | (rw [VersionTracker.expected_reset_self] at hw
         exact absurd hw (by simp))
      | (rw [VersionTracker.expected_observe_of_le s cid v h] at hw
         exact le_of_eq (Option.some.inj hw).symm)

/-- Along a run of successful calls, every tracked version for the id stays at
or below the server counter, and the counter advances by the number of calls. -/
theorem runSuccess_invariant (cid : String) (url : String) (ops : List MutOp) :
    ∀ (s : TrackerState) (sv : Nat),
      (∀ w, VersionTracker.expected s cid = some w → w ≤ sv) →
      (∀ w, VersionTracker.expected (runSuccess cid url ops (s, sv)).fst cid = some w →
          w ≤ (runSuccess cid url ops (s, sv)).snd) ∧
        (runSuccess cid url ops (s, sv)).snd = sv + ops.length := by
  induction ops with
  | nil => intro s sv h; exact ⟨h, rfl⟩
  | cons op rest ih =>
      intro s sv h
      have hstep := successTracker_bound op s cid (sv + 1)
        (fun w hw => le_trans (h w hw) (Nat.le_succ sv))
      have heq : runSuccess cid url (op :: rest) (s, sv) =
          runSuccess cid url rest (successTracker op s cid (sv + 1), sv + 1) := rfl
      have hrec := ih (successTracker op s cid (sv + 1)) (sv + 1) hstep
      refine ⟨?_, ?_⟩
      · intro w hw
        rw [heq] at hw ⊢
        exact hrec.1 w hw
      · rw [heq, hrec.2]
        simp [List.length_cons]
        omega

/-- Runs compose: processing a concatenation of call lists is processing the
first list and then the second. -/
theorem runSuccess_append (cid : String) (url : String) (l1 l2 : List MutOp) :
    ∀ st, runSuccess cid url (l1 ++ l2) st =
      runSuccess cid url l2 (runSuccess cid url l1 st) := by
  induction l1 with
  | nil => intro st; rfl
  | cons op rest ih =>
      intro st
      obtain ⟨s, sv⟩ := st
      simp only [List.cons_append, runSuccess]
      exact ih _

/-- Every non-delete successful call updates the tracker by observing. -/
theorem successTracker_of_ne_delete (op : MutOp) (s : TrackerState)
    (cid : String) (v : Nat) (h : op ≠ MutOp.delete) :
    successTracker op s cid v = VersionTracker.observe s cid v := by
  cases op <;> first | rfl | exact absurd rfl h

/-- Modelled from the spec: the Response Mapper's top-level success test — any
status in the conventional 2xx range (spec section 4.1). -/
def statusOk (status : Int) : Bool := 200 ≤ status && status < 300

/-- Modelled from the spec: the Response Mapper's top-level stage (spec section
4.1); the client module is absent from the given tree. Given the transport
result (status, request url, raw body) and the codec's decode outcome, it
fails with an UltraContextHttpError on a non-2xx status, or when parsing was
expected and the body failed to decode; otherwise it hands the decoded value
on. The error carries a nonempty message, the status, the url and the raw
body. -/
def mapResponse (expectBody : Bool) (status : Int) (url : String)
    (raw : Option String) (decoded : Option JVal) :
    Except UltraContextHttpError (Option JVal) :=
  if statusOk status then
    if expectBody then
      match decoded with
      | some j => .ok (some j)
      | none =>
          .error (UltraContextHttpError.init
            ("failed to parse response body from " ++ url) status url raw)
    else .ok none
  else
    .error (UltraContextHttpError.init
      ("request to " ++ url ++ " failed with status " ++ toString status)
      status url raw)

/-- Look up a key in a decoded object's field list. -/
def jLookup : List (String × JVal) → String → Option JVal
  | [], _ => none
  | (k, v) :: rest, key => if k = key then some v else jLookup rest key

/-- Field of a decoded value: present only on an object that has the key. -/
def jGet (j : JVal) (key : String) : Option JVal :=
  match j with
  | .obj fields => jLookup fields key
  | _ => none

/-- String-valued field, absent or ill-typed degrades to none. -/
def jGetStr (j : JVal) (key : String) : Option String :=
  match jGet j key with
  | some (.str s) => some s
  | _ => none

/-- Integer-valued field, absent or ill-typed degrades to none. -/
def jGetInt (j : JVal) (key : String) : Option Int :=
  match jGet j key with
  | some (.num n) => some n
  | _ => none

/-- Array-valued field, absent or ill-typed degrades to the empty list. -/
def jGetArr (j : JVal) (key : String) : List JVal :=
  match jGet j key with
  | some (.arr xs) => xs
  | _ => []

/-- Object-valued field, absent or ill-typed degrades to none. -/
def jGetDict (j : JVal) (key : String) : Option (List (String × JVal)) :=
  match jGet j key with
  | some (.obj fields) => some fields
  | _ => none

/-- String-list-valued field, absent or ill-typed degrades to none; non-string
elements are dropped. -/
def jGetStrList (j : JVal) (key : String) : Option (List String) :=
  match jGet j key with
  | some (.arr xs) =>
      some (xs.filterMap fun x =>
        match x with
        | .str s => some s
        | _ => none)
  | _ => none

/-- Modelled from the spec: decoding one Message record field-for-field from a
decoded value; a missing or ill-typed field degrades to none, never raising
(spec section 4.1 and types.py total=False). -/
def parseMessage (j : JVal) : Message :=
  ⟨jGetStr j "id", jGetInt j "index", jGetStr j "role", jGetStr j "content",
   jGetDict j "metadata"⟩

/-- Modelled from the spec: decoding one Version record field-for-field from a
decoded value; a missing or ill-typed field degrades to none, never raising
(spec section 4.1 and types.py total=False). -/
def parseVersionRecord (j : JVal) : Version :=
  ⟨jGetInt j "version", jGetStr j "created_at", jGetStr j "operation",
   jGetStrList j "affected", jGetDict j "metadata"⟩

/-- Modelled from the spec: decoding a GetContextResponse field-for-field from
a decoded value; absent data or versions degrade to the empty list, an absent
version to none (spec section 4.1 and types.py total=False). -/
def parseGetContext (j : JVal) : GetContextResponse :=
  ⟨(jGetArr j "data").map parseMessage, jGetInt j "version",
   (jGetArr j "versions").map parseVersionRecord⟩

/-- Modelled from the spec: the full mapping of a get response — the top-level
status and parse check of mapResponse followed by the total, never-raising
field decode of parseGetContext. -/
def mapGetContext (status : Int) (url : String) (raw : Option String)
    (decoded : Option JVal) : Except UltraContextHttpError GetContextResponse :=
  match mapResponse true status url raw decoded with
  | .error e => .error e
  | .ok (some j) => .ok (parseGetContext j)
  | .ok none => .ok (parseGetContext .null)

/-- Modelled from the spec: the compress strategies; a lossless strategy
retains the original messages so that uncompress can restore them (spec
sections 4.3 and 8). -/
inductive Strategy where
  | lossless
  | truncate
deriving DecidableEq

/-- Modelled from the spec: the server-side state of one context relevant to
compress and uncompress — the version counter, the current message list, and
the originals retained by a lossless compression (spec sections 4.3 and 8). -/
structure SrvContext where
  version : Nat
  messages : List Message
  retained : Option (List Message)

/-- Modelled from the spec: the single compacted message a compression leaves
in place of the compacted region. -/
def summaryOf (ms : List Message) : Message :=
  ⟨some "summary", some 0, some "system",
   some ((ms.filterMap Message.content).foldl (fun acc c => acc ++ c) ""),
   none⟩

/-- Modelled from the spec: server-side compaction — a mutating operation that
replaces the message list by its compacted form and increments the version;
a lossless strategy retains the original messages, a lossy one does not (spec
sections 4.3 and 8). -/
def compressCtx (st : Strategy) (c : SrvContext) : SrvContext :=
  ⟨c.version + 1, [summaryOf c.messages],
   if st = Strategy.lossless then some c.messages else none⟩

/-- Modelled from the spec: server-side uncompression — a mutating operation
that expands previously compressed regions back into the original messages
where retained, and increments the version (spec sections 4.3 and 8). -/
def uncompressCtx (c : SrvContext) : SrvContext :=
  ⟨c.version + 1,
   match c.retained with
   | some ms => ms
   | none => c.messages,
   none⟩

/-- Projection of a message to its id and content, the comparison the
round-trip property uses. -/
def idContent (m : Message) : Option String × Option String := (m.id, m.content)

/-- C2: when the server reports a version-precondition mismatch, every mutating
operation (append, update, delete, compress, uncompress) fails with a
ConflictError exposing the server's authoritative current version, and the
Version Tracker's state for the context id is left unchanged. -/
theorem conflict_error_exposes_server_version :
    ∀ (op : MutOp) (s : TrackerState) (cid url : String) (sv : Nat),
      (opStep op s cid url (.conflict sv)).fst = s ∧
      VersionTracker.expected (opStep op s cid url (.conflict sv)).fst cid =
        VersionTracker.expected s cid ∧
      ∃ e : ConflictError,
        (opStep op s cid url (.conflict sv)).snd = .error (.conflictFailure e) ∧
          e.currentVersion = sv :=
  fun _ _ _ _ _ => ⟨rfl, rfl, ⟨_, rfl, rfl⟩⟩

/-- C4: a successful delete leaves the Version Tracker in the Unknown state for
the context id, and a subsequent append on the same id sends no version
precondition. -/
theorem delete_resets_tracker :
    ∀ (s : TrackerState) (cid url : String) (v : Nat),
      VersionTracker.expected (opStep MutOp.delete s cid url (.ok v)).fst cid = none ∧
      sendPrecondition (opStep MutOp.delete s cid url (.ok v)).fst cid = none ∧
      (opStep MutOp.delete s cid url (.ok v)).snd = .ok v :=
  fun s cid _ _ =>
    ⟨VersionTracker.expected_reset_self s cid,
     VersionTracker.expected_reset_self s cid, rfl⟩

/-- C8: every Version record of the audit trail carries, in addition to the
version number, a creation timestamp, the operation name, the affected message
identifiers and optional metadata — the record consists of exactly these five
fields and each constructor argument is recovered by the matching field. -/
theorem version_record_audit_fields :
    (∀ (x : Version),
        x = ⟨x.version, x.created_at, x.operation, x.affected, x.metadata⟩) ∧
    ∀ (v : Option Int) (c o : Option String) (a : Option (List String))
        (m : Option (List (String × JVal))),
      (Version.mk v c o a m).version = v ∧
        (Version.mk v c o a m).created_at = c ∧
        (Version.mk v c o a m).operation = o ∧
        (Version.mk v c o a m).affected = a ∧
        (Version.mk v c o a m).metadata = m :=
  ⟨fun _ => rfl, fun _ _ _ _ _ => ⟨rfl, rfl, rfl, rfl, rfl⟩⟩

/-- C9: compress followed by uncompress under the lossless strategy restores a
message list equal element-wise by id and content to the pre-compress list,
with the context's version increased by exactly 2. -/
theorem compress_uncompress_roundtrip :
    ∀ (c : SrvContext),
      (uncompressCtx (compressCtx Strategy.lossless c)).messages.map idContent =
        c.messages.map idContent ∧
      (uncompressCtx (compressCtx Strategy.lossless c)).version = c.version + 2 :=
  fun _ => ⟨rfl, rfl⟩

/-- C10: UltraContextHttpError is a subclass of UltraContextError, so an except
clause for the base type catches HTTP errors too; the body attribute defaults
to None when not supplied; and the message passed at construction becomes the
exception's string representation via the Exception base class. -/
theorem http_error_base_and_defaults :
    isSubclass "UltraContextHttpError" "UltraContextError" = true ∧
    pyCatches "UltraContextError" "UltraContextHttpError" = true ∧
    (∀ (m : String) (s : Int) (u : String),
        (UltraContextHttpError.initNoBody m s u).body = none) ∧
    ∀ (m : String) (s : Int) (u : String) (b : Option String),
      excStr (UltraContextHttpError.init m s u b).args = m :=
  ⟨by decide, by decide, fun _ _ _ => rfl, fun _ _ _ _ => rfl⟩

/-- C3 counterexample: the exposed error surface of the package has no conflict
error subtype — the exported names that are subclasses of the base error are
exactly the base error and the HTTP error, the exceptions module defines only
those two classes, and no ConflictError is defined or exported anywhere. -/
theorem no_conflict_subtype_exposed :
    allExports.filter (fun n => isSubclass n "UltraContextError") =
      ["UltraContextError", "UltraContextHttpError"] ∧
    exceptionsDefinedNames = ["UltraContextError", "UltraContextHttpError"] ∧
    "ConflictError" ∉ allExports ∧
    "ConflictError" ∉ exceptionsDefinedNames ∧
    "ConflictError" ∉ initExceptionImports := by
  refine ⟨by decide, rfl, by decide, by decide, by decide⟩

/-- C3 amended: the library's exposed error surface consists of a base error
type and an HTTP error subtype carrying status, url and body, the two being
distinguishable by type; no conflict error subtype is defined or exported. -/
theorem error_surface_base_and_http :
    allExports.filter (fun n => isSubclass n "UltraContextError") =
      ["UltraContextError", "UltraContextHttpError"] ∧
    isSubclass "UltraContextHttpError" "UltraContextError" = true ∧
    isSubclass "UltraContextError" "UltraContextHttpError" = false ∧
    ∀ (m : String) (s : Int) (u : String) (b : Option String),
      (UltraContextHttpError.init m s u b).status = s ∧
        (UltraContextHttpError.init m s u b).url = u ∧
        (UltraContextHttpError.init m s u b).body = b :=
  ⟨by decide, by decide, by decide, fun _ _ _ _ => ⟨rfl, rfl, rfl⟩⟩

/-- C6: the compress and uncompress typed records — CompressOptions,
CompressResponse, CompressionInfo, UncompressOptions, UncompressResponse — are
defined and importable from the package alongside the other operations'
response records: each is imported from the types module by __init__.py,
listed in __all__, and defined; every types import of __init__.py resolves. -/
theorem compress_types_exposed :
    (modelledTypesNames.all (fun n => initTypesImports.contains n)) = true ∧
    (modelledTypesNames.all (fun n => allExports.contains n)) = true ∧
    (modelledTypesNames.all (fun n => typesAllDefined.contains n)) = true ∧
    (initTypesImports.all (fun n => typesAllDefined.contains n)) = true ∧
    (initTypesImports.all (fun n => allExports.contains n)) = true ∧
    (∀ (o : CompressOptions), o = ⟨o.fromIndex, o.toIndex, o.strategy⟩) ∧
    (∀ (i : CompressionInfo), i = ⟨i.compacted, i.size⟩) ∧
    (∀ (r : CompressResponse), r = ⟨r.data, r.version, r.compression⟩) ∧
    (∀ (o : UncompressOptions), o = ⟨o.fromIndex, o.toIndex⟩) ∧
    ∀ (r : UncompressResponse), r = ⟨r.data, r.version⟩ :=
  ⟨by decide, by decide, by decide, by decide, by decide,
   fun _ => rfl, fun _ => rfl, fun _ => rfl, fun _ => rfl, fun _ => rfl⟩

/-- C5: for every transport result whose status is outside the 2xx range, or
whose body fails to parse when parsing was expected, the response mapper
produces an HttpError carrying a nonempty human-readable message, the numeric
status, the request url, and the raw body when one is present. -/
theorem mapper_failure_http_error :
    ∀ (expectBody : Bool) (status : Int) (url : String) (raw : Option String)
      (decoded : Option JVal),
      statusOk status = false ∨ (expectBody = true ∧ decoded = none) →
      ∃ e : UltraContextHttpError,
        mapResponse expectBody status url raw decoded = .error e ∧
          e.status = status ∧ e.url = url ∧ e.body = raw ∧
          ∃ msg : String, e.args = [msg] ∧ 0 < msg.length := by
  intro expectBody status url raw decoded h
  by_cases hok : statusOk status
  · rcases h with hs | ⟨he, hd⟩
    · rw [hok] at hs; exact absurd hs (by simp)
    · subst he; subst hd
      refine ⟨UltraContextHttpError.init
        ("failed to parse response body from " ++ url) status url raw,
        ?_, rfl, rfl, rfl, ⟨_, rfl, ?_⟩⟩
      · simp [mapResponse, hok]
      · rw [String.length_append]
        have hpos : 0 < "failed to parse response body from ".length := by decide
        omega
  · refine ⟨UltraContextHttpError.init
      ("request to " ++ url ++ " failed with status " ++ toString status)
      status url raw, ?_, rfl, rfl, rfl, ⟨_, rfl, ?_⟩⟩
    · simp [mapResponse, hok]
    · rw [String.length_append, String.length_append, String.length_append]
      have hpos : 0 < "request to ".length := by decide
      omega

/-- Witness for C5 at a concrete failing transport result: status 404 with an
unparsed body. -/
theorem mapper_failure_http_error_witness :
    (statusOk 404 = false ∨ (true = true ∧ (none : Option JVal) = none)) ∧
    ∃ e : UltraContextHttpError,
      mapResponse true 404 "https://api.ultracontext.dev/v1/contexts/c1"
          (some "not found") none = .error e ∧
        e.status = 404 ∧ e.url = "https://api.ultracontext.dev/v1/contexts/c1" ∧
        e.body = some "not found" ∧
        ∃ msg : String, e.args = [msg] ∧ 0 < msg.length :=
  ⟨Or.inl (by decide),
   mapper_failure_http_error true 404 "https://api.ultracontext.dev/v1/contexts/c1"
     (some "not found") none (Or.inl (by decide))⟩

/-- C7: for every successfully decoded response body, the field decode of the
domain records is total — a missing id, index, role, content, metadata, data,
version or versions never makes the mapper raise, degrading to none or empty
instead — and the only decode-time failure is the top-level status check. -/
theorem decode_missing_fields_degrade :
    (∀ (status : Int) (url : String) (raw : Option String) (j : JVal),
        statusOk status = true →
        mapGetContext status url raw (some j) = .ok (parseGetContext j)) ∧
    parseMessage (JVal.obj []) = ⟨none, none, none, none, none⟩ ∧
    parseVersionRecord (JVal.obj []) = ⟨none, none, none, none, none⟩ ∧
    parseGetContext (JVal.obj []) = ⟨[], none, []⟩ ∧
    ∀ (status : Int) (url : String) (raw : Option String) (j : JVal),
      (∃ r, mapGetContext status url raw (some j) = .ok r) ↔
        statusOk status = true := by
  refine ⟨?_, rfl, rfl, rfl, ?_⟩
  · intro status url raw j h
    simp [mapGetContext, mapResponse, h]
  · intro status url raw j
    constructor
    · rintro ⟨r, hr⟩
      by_cases hok : statusOk status
      · exact hok
      · rw [Bool.not_eq_true] at hok
        simp [mapGetContext, mapResponse, hok] at hr
    · intro h
      exact ⟨parseGetContext j, by simp [mapGetContext, mapResponse, h]⟩

/-- Witness for C7 at a concrete decoded body: an empty object under a 2xx
status maps to the fully degraded record. -/
theorem decode_missing_fields_degrade_witness :
    statusOk 200 = true ∧
    mapGetContext 200 "https://api.ultracontext.dev/v1/contexts/c1" none
        (some (JVal.obj [])) = .ok (parseGetContext (JVal.obj [])) :=
  ⟨by decide,
   decode_missing_fields_degrade.1 200 "https://api.ultracontext.dev/v1/contexts/c1"
     none (JVal.obj []) (by decide)⟩

/-- C1 counterexample: a sequence of successful mutating calls ending in a
delete leaves the tracker Unknown, not at the version returned by the most
recent successful call — here successful append then delete from a fresh
tracker; the delete returns version 2 but the tracker holds nothing for the
id, because a successful delete resets it. -/
theorem tracker_last_call_counterexample :
    (runSuccess "c1" "https://api" [MutOp.append, MutOp.delete] ([], 0)).snd = 2 ∧
    VersionTracker.expected
        (runSuccess "c1" "https://api" [MutOp.append, MutOp.delete] ([], 0)).fst
        "c1" ≠ some 2 := by
  refine ⟨rfl, ?_⟩
  decide

/-- C1 amended: observe advances the tracked version only when the observed
version is at least the current one; an observe that took effect followed by
an observe of a smaller version leaves the tracked version unchanged; and
after any sequence of successful mutating calls on one context whose most
recent call is not a delete, the tracked value equals the version returned by
that most recent call (a successful delete instead resets the id to Unknown). -/
theorem tracker_monotone :
    (∀ (s : TrackerState) (cid : String) (v cur : Nat),
        VersionTracker.expected s cid = some cur →
        VersionTracker.expected (VersionTracker.observe s cid v) cid =
          some (if cur ≤ v then v else cur)) ∧
    (∀ (s : TrackerState) (cid : String) (v v2 : Nat),
        VersionTracker.expected (VersionTracker.observe s cid v) cid = some v →
        v2 < v →
        VersionTracker.expected
            (VersionTracker.observe (VersionTracker.observe s cid v) cid v2)
            cid = some v) ∧
    ∀ (ops : List MutOp) (op : MutOp) (s : TrackerState) (sv : Nat)
      (cid url : String),
      (∀ w, VersionTracker.expected s cid = some w → w ≤ sv) →
      op ≠ MutOp.delete →
      VersionTracker.expected (runSuccess cid url (ops ++ [op]) (s, sv)).fst cid =
        some (runSuccess cid url (ops ++ [op]) (s, sv)).snd := by
  refine ⟨?_, ?_, ?_⟩
  · intro s cid v cur h
    rw [VersionTracker.expected_observe_self, h]
  · intro s cid v v2 hv hlt
    rw [VersionTracker.expected_observe_self, hv]
    have : ¬ v ≤ v2 := Nat.not_le.mpr hlt
    simp [this]
  · intro ops op s sv cid url hbound hop
    have hinv := runSuccess_invariant cid url ops s sv hbound
    rw [runSuccess_append]
    rcases hps : runSuccess cid url ops (s, sv) with ⟨s2, sv2⟩
    rw [hps] at hinv
    have hrun : runSuccess cid url [op] (s2, sv2) =
        (successTracker op s2 cid (sv2 + 1), sv2 + 1) := rfl
    rw [hrun, successTracker_of_ne_delete op s2 cid (sv2 + 1) hop]
    exact VersionTracker.expected_observe_of_le s2 cid (sv2 + 1)
      (fun w hw => le_trans (hinv.1 w hw) (Nat.le_succ sv2))

/-- Witness for C1 at concrete inputs: an observe over Known(3), a stale
observe after a fresh observe of 5, and a run of a successful append then a
successful update from a fresh tracker whose final tracked value is the
version 2 returned by the update. -/
theorem tracker_monotone_witness :
    VersionTracker.expected
        (VersionTracker.observe [("c1", 3)] "c1" 7) "c1" = some (if 3 ≤ 7 then 7 else 3) ∧
    VersionTracker.expected
        (VersionTracker.observe (VersionTracker.observe [] "c1" 5) "c1" 2) "c1" =
      some 5 ∧
    VersionTracker.expected
        (runSuccess "c1" "https://api" ([MutOp.append] ++ [MutOp.update]) ([], 0)).fst
        "c1" =
      some (runSuccess "c1" "https://api" ([MutOp.append] ++ [MutOp.update]) ([], 0)).snd :=
  ⟨tracker_monotone.1 [("c1", 3)] "c1" 7 3 (by decide),
   tracker_monotone.2.1 [] "c1" 5 2 (by decide) (by decide),
   tracker_monotone.2.2 [MutOp.append] MutOp.update [] 0 "c1" "https://api"
     (fun w hw => by simp [VersionTracker.expected] at hw) (by decide)⟩

end UltraContext
